import Mathlib

/-!
Shallow embedding of the LocalAid backend (Node/Express + Mongoose).

The definitions below are translated from the repository sources:
`src/controllers/userController.js`, `src/controllers/serviceController.js`,
`src/controllers/authController.js`, `src/models/Service.js` and the user
model (`src/unnamed/part_001`).  Request handlers become pure functions from
a database value (a list of documents) and the request data to a response
together with the successor database.  List endpoints delegate their reads
to the external document store, so they are modelled as producing the store
query they would issue, plus the serialization applied to store results.
-/

namespace LocalAid

/-- A JavaScript scalar as it occurs at a coordinate position: a finite
number (JSON numbers are always finite, modelled as a rational), `null`
(allowed in JSON bodies), `NaN` or a signed infinity (producible only by
`parseFloat`). -/
inductive Js where
  | num (q : ℚ)
  | null
  | nan
  | inf
  | neginf
deriving DecidableEq, Repr

/-- JavaScript `isNaN`: `Number(null) = 0`, so `isNaN(null)` is `false`;
infinities are not NaN. -/
def Js.jsIsNaN : Js → Bool
  | .nan => true
  | _ => false

/-- JavaScript `<` against a finite literal: `null` coerces to `0`, any
comparison with `NaN` is `false`, `Infinity` compares as larger than every
finite value. -/
def Js.jsLt (a : Js) (c : ℚ) : Bool :=
  match a with
  | .num q => decide (q < c)
  | .null => decide ((0 : ℚ) < c)
  | .nan => false
  | .inf => false
  | .neginf => true

/-- JavaScript `>` against a finite literal, same coercions as `Js.jsLt`. -/
def Js.jsGt (a : Js) (c : ℚ) : Bool :=
  match a with
  | .num q => decide (c < q)
  | .null => decide (c < (0 : ℚ))
  | .nan => false
  | .inf => true
  | .neginf => false

/-- JavaScript `>=` against a finite literal (used by the Mongoose
coordinate validators): `NaN >= c` is `false`, `null` coerces to `0`. -/
def Js.jsGe (a : Js) (c : ℚ) : Bool :=
  match a with
  | .num q => decide (c ≤ q)
  | .null => decide (c ≤ (0 : ℚ))
  | .nan => false
  | .inf => true
  | .neginf => false

/-- JavaScript `<=` against a finite literal. -/
def Js.jsLe (a : Js) (c : ℚ) : Bool :=
  match a with
  | .num q => decide (q ≤ c)
  | .null => decide ((0 : ℚ) ≤ c)
  | .nan => false
  | .inf => false
  | .neginf => true

/-- JavaScript `parseFloat` applied to a value that is already a scalar:
numbers are returned unchanged, `parseFloat(String(null)) = parseFloat("null")`
is `NaN`. -/
def Js.jsParseFloatVal : Js → Js
  | .num q => .num q
  | .null => .nan
  | .nan => .nan
  | .inf => .inf
  | .neginf => .neginf

/-- Value of a digit character. -/
def digitVal (c : Char) : ℕ := c.toNat - '0'.toNat

/-- Numeric value of a digit string. -/
def digitsToNat (cs : List Char) : ℕ :=
  cs.foldl (fun acc c => 10 * acc + digitVal c) 0

/-- JavaScript `String.prototype.trim`: strip whitespace from both ends
(defined over the character list so that it evaluates by kernel
reduction). -/
def jsTrim (s : String) : String :=
  String.mk
    (List.rdropWhile Char.isWhitespace (s.data.dropWhile Char.isWhitespace))

/-- JavaScript `String.prototype.toLowerCase` (ASCII, as in the sources). -/
def jsToLowerCase (s : String) : String :=
  String.mk (s.data.map Char.toLower)

/-- JavaScript `String.prototype.split` with a one-character separator:
`"".split(sep)` is `[""]`, separators at the ends produce empty pieces. -/
def splitChar (sep : Char) : List Char → List (List Char)
  | [] => [[]]
  | c :: rest =>
    let r := splitChar sep rest
    if c == sep then [] :: r
    else
      match r with
      | h :: t => (c :: h) :: t
      | [] => [[c]]

/-- JavaScript `parseFloat` on a string: skips leading whitespace, accepts an
optional sign, then either the literal `Infinity` or a decimal numeral
`digits [. digits] | . digits`; everything past the longest such prefix is
ignored; if no prefix parses the result is `NaN`.  (Exponent suffixes are not
modelled; they change only the magnitude of a finite result, never its
NaN-ness or finiteness.) -/
def jsParseFloat (s : String) : Js :=
  let cs := s.toList.dropWhile Char.isWhitespace
  let (neg, cs) :=
    match cs with
    | '+' :: r => (false, r)
    | '-' :: r => (true, r)
    | r => (false, r)
  if cs.take 8 = "Infinity".toList then
    if neg then .neginf else .inf
  else
    let intPart := cs.takeWhile Char.isDigit
    let rest := cs.drop intPart.length
    let fracPart :=
      match rest with
      | '.' :: r => r.takeWhile Char.isDigit
      | _ => []
    if intPart.isEmpty && fracPart.isEmpty then .nan
    else
      let m : ℤ :=
        (digitsToNat intPart * 10 ^ fracPart.length + digitsToNat fracPart : ℕ)
      let v : ℚ := mkRat m (10 ^ fracPart.length)
      .num (if neg then -v else v)

/-- Stored GeoJSON point: `{ type: 'Point', coordinates: [...] }`; the
`type` field is the constant `'Point'` and is left implicit. -/
structure GeoPoint where
  coordinates : List Js
deriving DecidableEq, Repr

/-- Persisted user document (user model, `src/unnamed/part_001`).  `password`
holds the bcrypt hash.  Document ids are modelled as naturals. -/
structure UserDoc where
  id : ℕ
  nombre : String
  email : String
  password : String
  telefono : Option String := none
  rol : String
  skills : List String := []
  ubicacion : Option GeoPoint := none
deriving DecidableEq, Repr

/-- Persisted service document (`src/models/Service.js`). -/
structure ServiceDoc where
  id : ℕ
  titulo : String
  descripcion : String
  categoria : String
  estado : String := "pendiente"
  creadoPor : ℕ
  ubicacion : Option GeoPoint := none
  precio : ℚ := 0
  moneda : String := "MXN"
  duracionEstimada : ℚ := 1
  unidadDuracion : String := "horas"
deriving DecidableEq, Repr

/-- The `estado` enum of the service schema. -/
def validEstados : List String := ["pendiente", "en progreso", "completado"]

/-- The `categoria` enum of the service schema. -/
def validCategorias : List String :=
  ["hogar", "jardineria", "limpieza", "reparaciones", "transporte",
   "tecnologia", "educacion", "salud", "deportes", "eventos", "otro"]

/-- `Model.findById` over the modelled store. -/
def findUser (db : List UserDoc) (id : ℕ) : Option UserDoc :=
  db.find? (fun u => u.id == id)

/-- `Model.findById` over the modelled store. -/
def findService (db : List ServiceDoc) (id : ℕ) : Option ServiceDoc :=
  db.find? (fun s => s.id == id)

/-! ### Schema validators (user model and `src/models/Service.js`) -/

/-- JavaScript regex `\w`: ASCII letters, digits and underscore. -/
def isWordChar (c : Char) : Bool := c.isAlphanum || c == '_'

/-- A separator admitted between word runs in the email regex. -/
def isEmailSep (c : Char) : Bool := c == '.' || c == '-'

/-- Recognizer for `\w+([.-]?\w+)*` anchored at both ends, written as a scan:
`needWord = true` means the next character must start a mandatory `\w+` run.
A word character extends the current run; a separator closes it and demands a
fresh run.  This accepts exactly the strings of word characters and single
interspersed separators that begin and end with a word character. -/
def matchChunks (needWord : Bool) : List Char → Bool
  | [] => !needWord
  | c :: rest =>
    if isWordChar c then matchChunks false rest
    else if isEmailSep c && !needWord then matchChunks true rest
    else false

/-- Recognizer for the email local part `\w+([.-]?\w+)*`. -/
def matchLocal (cs : List Char) : Bool := matchChunks true cs

/-- Recognizer for the email domain `\w+([.-]?\w+)*(\.\w{2,3})+`: the word
runs and separators must be well formed as in the local part, and the final
group forces the last run to be introduced by `.` (not `-`) and to be 2–3
characters long — one repetition of `(\.\w{2,3})+` suffices because
`([.-]?\w+)*` absorbs any earlier runs. -/
def matchDomain (cs : List Char) : Bool :=
  let r := cs.reverse
  let lastRun := r.takeWhile isWordChar
  matchChunks true cs &&
    decide (2 ≤ lastRun.length ∧ lastRun.length ≤ 3) &&
    (r.drop lastRun.length).head? == some '.'

/-- The user schema's email `match` regex
`/^\w+([.-]?\w+)*@\w+([.-]?\w+)*(\.\w{2,3})+$/`: neither side of the pattern
admits `@`, so the string must contain exactly one `@` splitting it into a
local part and a domain. -/
def validEmail (s : String) : Bool :=
  match splitChar '@' s.data with
  | [l, d] => matchLocal l && matchDomain d
  | _ => false

/-- The user schema's phone `match` regex `/^[0-9+\-\s()]+$/`; the Mongoose
`match` validator passes `null` and the empty string without testing. -/
def validTelefono (t : String) : Bool :=
  t == "" || (!t.isEmpty && t.toList.all fun c =>
    c.isDigit || c == '+' || c == '-' || c.isWhitespace || c == '(' || c == ')')

/-- The `coordinates` validator shared verbatim by the user and service
schemas: empty coordinates are allowed, otherwise exactly two entries with
`coords[0] >= -180 && coords[0] <= 180 && coords[1] >= -90 && coords[1] <= 90`
under JavaScript comparison semantics. -/
def validCoords (coords : List Js) : Bool :=
  coords.isEmpty ||
    (coords.length == 2 &&
      ((coords.getD 0 .null).jsGe (-180) && (coords.getD 0 .null).jsLe 180 &&
       (coords.getD 1 .null).jsGe (-90) && (coords.getD 1 .null).jsLe 90))

/-- Validator of a stored location, lifted over the optional field. -/
def validUbicacion : Option GeoPoint → Bool
  | none => true
  | some p => validCoords p.coordinates

/-- Full-document validation of a user as run by `save()` (the user schema):
required/trimmed `nombre` of at most 50 characters, email matching the
schema regex, plaintext password of at least 6 characters (validation runs
before the hashing hook), optional phone matching its regex, role enum, and
the coordinate validator. -/
def userDocValid (nombre email password : String) (telefono : Option String)
    (rol : String) (ubicacion : Option GeoPoint) : Bool :=
  let n := jsTrim nombre
  !n.isEmpty && decide (n.length ≤ 50) &&
    validEmail email &&
    decide (6 ≤ password.length) &&
    (match telefono with
     | none => true
     | some t => validTelefono (jsTrim t)) &&
    (rol == "oferente" || rol == "solicitante") &&
    validUbicacion ubicacion

/-- Full-document validation of a service as run by `save()`
(`src/models/Service.js`): required trimmed title/description with length
caps, category and status enums, non-negative price, currency enum, duration
at least 1, duration-unit enum, and the coordinate validator. -/
def serviceDocValid (s : ServiceDoc) : Bool :=
  !(jsTrim s.titulo).isEmpty && decide ((jsTrim s.titulo).length ≤ 100) &&
    !(jsTrim s.descripcion).isEmpty && decide ((jsTrim s.descripcion).length ≤ 1000) &&
    validCategorias.contains s.categoria &&
    validEstados.contains s.estado &&
    decide ((0 : ℚ) ≤ s.precio) &&
    ["MXN", "USD", "EUR"].contains s.moneda &&
    decide ((1 : ℚ) ≤ s.duracionEstimada) &&
    ["horas", "dias", "semanas"].contains s.unidadDuracion &&
    validUbicacion s.ubicacion

/-! ### Serialization (response payloads) -/

/-- `document.toObject()` for a user: the persisted fields as key/value
pairs (values rendered as strings; only the key set matters to the
serialization contracts below). -/
def userToObject (u : UserDoc) : List (String × String) :=
  [("_id", toString u.id), ("nombre", u.nombre), ("email", u.email),
   ("password", u.password), ("rol", u.rol),
   ("skills", String.intercalate "," u.skills)]
  ++ (match u.telefono with | some t => [("telefono", t)] | none => [])
  ++ (match u.ubicacion with | some _ => [("ubicacion", "Point")] | none => [])

/-- `userSchema.methods.toJSON` (user model): `toObject()` followed by
`delete userObject.password`. -/
def userToJSON (u : UserDoc) : List (String × String) :=
  (userToObject u).filter fun kv => kv.1 ≠ "password"

/-- The `.select('-password')` projection used by `getUsers` and
`getUserById`: every persisted field except the excluded one. -/
def selectWithoutPassword (u : UserDoc) : List (String × String) :=
  (userToObject u).filter fun kv => kv.1 ≠ "password"

/-- A `.populate('creadoPor', fields)` projection: the document id plus
exactly the named fields. -/
def populateProjection (u : UserDoc) (fields : List String) : List (String × String) :=
  ("_id", toString u.id) :: (userToObject u).filter fun kv => fields.contains kv.1

/-- Field list of `populate('creadoPor', 'nombre email telefono rol')` used
by `createService`, `updateService` and `updateServiceStatus`. -/
def populateFieldsShort : List String := ["nombre", "email", "telefono", "rol"]

/-- Field list of `populate('creadoPor', 'nombre email telefono rol ubicacion')`
used by `getServices` and `getServiceById`. -/
def populateFieldsLong : List String := ["nombre", "email", "telefono", "rol", "ubicacion"]

/-- Owner join performed on service responses: resolve `creadoPor` against
the user store and project the requested fields. -/
def populateOwner (users : List UserDoc) (fields : List String) (s : ServiceDoc) :
    Option (List (String × String)) :=
  (findUser users s.creadoPor).map fun u => populateProjection u fields

/-- Serialization of a page of user documents returned by the store for
`GET /api/users`: the handler queries with `.select('-password')`. -/
def serializeUsersPage (results : List UserDoc) : List (List (String × String)) :=
  results.map selectWithoutPassword

/-! ### External primitives (bcrypt, jsonwebtoken) -/

/-- Model of `bcrypt.hash` (external primitive): an injective tagging of the
plaintext.  Real bcrypt salts its output; only the compare/hash relationship
below is relied on. -/
def bcryptHash (s : String) : String := "bcrypt$" ++ s

/-- Model of `bcrypt.compare(candidate, storedHash)`. -/
def bcryptCompare (candidate stored : String) : Bool :=
  bcryptHash candidate == stored

/-- Model of `generateToken` (`src/controllers/authController.js`):
`jwt.sign({ userId }, secret, { expiresIn: '7d' })` produces a compact
three-segment token string carrying the user id. -/
def generateToken (userId : ℕ) : String :=
  "header." ++ toString userId ++ ".sig"

/-! ### Responses and auth/user handlers -/

/-- JSON envelope of the user-side endpoints: HTTP status, `success`,
`message`, and the optional `data.user` / `data.token` payloads. -/
structure UserResponse where
  status : ℕ
  success : Bool
  message : String
  user : Option (List (String × String)) := none
  token : Option String := none
deriving DecidableEq, Repr

/-- `User.findOne({ email })` over the modelled store. -/
def lookupByEmail (db : List UserDoc) (e : String) : Option UserDoc :=
  db.find? (fun u => u.email == e)

/-- The generic 401 login failure, shared verbatim by the unknown-email and
wrong-password branches of `login`. -/
def invalidCredentials : UserResponse :=
  { status := 401, success := false, message := "Credenciales inválidas" }

/-- `login` (`src/controllers/authController.js`): requires both fields,
looks the user up by lowercased email, compares the password against the
stored hash, and on success returns the `toJSON` user plus a fresh token. -/
def login (db : List UserDoc) (email password : String) : UserResponse :=
  if email == "" || password == "" then
    { status := 400, success := false, message := "Email y contraseña son obligatorios" }
  else
    match lookupByEmail db (jsToLowerCase email) with
    | none => invalidCredentials
    | some u =>
      if bcryptCompare password u.password then
        { status := 200, success := true, message := "Inicio de sesión exitoso",
          user := some (userToJSON u), token := some (generateToken u.id) }
      else invalidCredentials

/-- `getMe` (`src/controllers/authController.js`): returns the
authenticated user serialized with `toJSON`. -/
def getMe (u : UserDoc) : UserResponse :=
  { status := 200, success := true, message := "", user := some (userToJSON u) }

/-- Location object of a request body:
`{ coordinates: [...] }` where the `coordinates` key may be absent or
`null` (`none`). -/
structure UbicBody where
  coordinates : Option (List Js) := none
deriving DecidableEq, Repr

/-- `POST /api/users` request body; absent string fields are modelled as
`""` (both are falsy under the controller's required-field check). -/
structure RegisterBody where
  nombre : String := ""
  email : String := ""
  password : String := ""
  telefono : Option String := none
  rol : String := ""
  skills : Option (List String) := none
  ubicacion : Option UbicBody := none
deriving DecidableEq, Repr

/-- `createUser`, required-field check:
`if (!nombre || !email || !password || !rol)`. -/
def registerRequiredMissing (b : RegisterBody) : Bool :=
  b.nombre == "" || b.email == "" || b.password == "" || b.rol == ""

/-- `createUser`, location shape check:
`ubicacion && (!ubicacion.coordinates || ubicacion.coordinates.length !== 2)`. -/
def registerBadUbic (b : RegisterBody) : Bool :=
  match b.ubicacion with
  | some u =>
    match u.coordinates with
    | none => true
    | some cs => cs.length != 2
  | none => false

/-- `createUser`, the stored location (`serviceData`-style construction):
only added when `ubicacion && ubicacion.coordinates`. -/
def registerUbic (b : RegisterBody) : Option GeoPoint :=
  match b.ubicacion with
  | some u => (u.coordinates).map (fun cs => { coordinates := cs })
  | none => none

/-- The email as persisted: the controller's `email.toLowerCase()` followed
by the schema's `lowercase`/`trim` cast (idempotent on the result). -/
def registerStoredEmail (b : RegisterBody) : String :=
  jsTrim (jsToLowerCase b.email)

/-- `save()` validation of a registration (full user schema, plaintext
password — validation runs before the hashing hook). -/
def registerValid (b : RegisterBody) : Bool :=
  userDocValid b.nombre (registerStoredEmail b) b.password (b.telefono.map jsTrim)
    b.rol (registerUbic b)

/-- The user document built and persisted by a successful registration
(schema `trim` setters applied, password hashed by the pre-save hook). -/
def registerDoc (nextId : ℕ) (b : RegisterBody) : UserDoc :=
  { id := nextId, nombre := jsTrim b.nombre, email := registerStoredEmail b,
    password := bcryptHash b.password, telefono := b.telefono.map jsTrim,
    rol := b.rol, skills := (b.skills.getD []).map jsTrim,
    ubicacion := registerUbic b }

/-- `createUser` (`src/controllers/userController.js`): required-field check,
location shape check, lowercase email, then `save()` — which casts (schema
`trim`/`lowercase` setters), validates the document (plaintext password),
hashes the password in the pre-save hook, and finally hits the unique email
index (duplicate key error 11000, mapped to the 400 duplicate message). -/
def createUser (db : List UserDoc) (nextId : ℕ) (b : RegisterBody) :
    UserResponse × List UserDoc :=
  if registerRequiredMissing b then
    ({ status := 400, success := false,
       message := "Nombre, email, contraseña y rol son obligatorios" }, db)
  else if registerBadUbic b then
    ({ status := 400, success := false,
       message := "Las coordenadas de ubicación deben ser [longitud, latitud]" }, db)
  else if registerValid b then
    if db.any (fun u => u.email == registerStoredEmail b) then
      ({ status := 400, success := false, message := "El email ya está registrado" }, db)
    else
      ({ status := 201, success := true, message := "Usuario creado exitosamente",
         user := some (userToJSON (registerDoc nextId b)) },
       db ++ [registerDoc nextId b])
  else
    ({ status := 400, success := false, message := "Datos de usuario inválidos" }, db)

/-- `getUserById` (`src/controllers/userController.js`): fetch with
`.select('-password')` or 404. -/
def getUserById (db : List UserDoc) (id : ℕ) : UserResponse :=
  match findUser db id with
  | none => { status := 404, success := false, message := "Usuario no encontrado" }
  | some u =>
    { status := 200, success := true, message := "Usuario obtenido exitosamente",
      user := some (selectWithoutPassword u) }

/-! ### Partial updates (`findByIdAndUpdate` with `runValidators: true`) -/

/-- Effect of an update document on one field.  `clear` is an explicit
`undefined` assignment.

Modelled from the spec: `package.json` (which pins the ODM) is not under
`src/`; the spec ("location is cleared") and the controllers' own comments
("eliminar la ubicación", "Eliminar si está vacío") state that assigning
`undefined` in the update removes the stored value, so `clear` sets the
field to absent. -/
inductive FieldUpdate (α : Type) where
  | unchanged
  | clear
  | set (v : α)
deriving DecidableEq, Repr

/-- Outcome of the location-processing block shared verbatim by
`updateUser` and `updateService`. -/
inductive UbicProcessed where
  | ok (u : FieldUpdate GeoPoint)
  | invalid
  | badShape
deriving DecidableEq, Repr

/-- The location-processing block of `updateUser` / `updateService`
(duplicated verbatim in both controllers).  Absent/empty coordinates, or a
first and second entry that are both `null`, clear the location; an exact
pair is range-checked under JavaScript comparison semantics (`null` coerces
to `0`, so a `null` entry passes the range check and `parseFloat` then turns
it into `NaN`); any other length is the bad-shape error. -/
def processUbicacion (u : UbicBody) : UbicProcessed :=
  match u.coordinates with
  | none => .ok .clear
  | some cs =>
    if cs.length == 0 ||
        (cs.getD 0 Js.nan == Js.null && cs.getD 1 Js.nan == Js.null) then
      .ok .clear
    else if cs.length == 2 then
      let lon := cs.getD 0 .null
      let lat := cs.getD 1 .null
      if lon.jsIsNaN || lat.jsIsNaN ||
          lon.jsLt (-180) || lon.jsGt 180 || lat.jsLt (-90) || lat.jsGt 90 then
        .invalid
      else
        .ok (.set { coordinates := [lon.jsParseFloatVal, lat.jsParseFloatVal] })
    else .badShape

/-- `PUT /api/users/:id` request body (the claim-relevant fields). -/
structure UserUpdateBody where
  nombre : Option String := none
  telefono : Option String := none
  skills : Option (List String) := none
  password : Option String := none
  ubicacion : Option UbicBody := none
deriving DecidableEq, Repr

/-- The update document handed to `User.findByIdAndUpdate` after the
controller's preprocessing. -/
structure UserUpdateDoc where
  nombre : Option String := none
  telefono : FieldUpdate String := .unchanged
  skills : Option (List String) := none
  password : Option String := none
  ubicacion : FieldUpdate GeoPoint := .unchanged
deriving DecidableEq, Repr

/-- `updateUser`, empty-name check: the name key is present and its value is
falsy or trims to the empty string. -/
def nombreBad (b : UserUpdateBody) : Bool :=
  match b.nombre with
  | some n0 => (if n0 == "" then "" else jsTrim n0) == ""
  | none => false

/-- The update document `updateUser` hands to `findByIdAndUpdate`: a truthy
password is stripped, the name is trimmed, the phone is trimmed or removed,
skills are trimmed and empties dropped, and the processed location effect is
attached. -/
def userUpdateDocOf (b : UserUpdateBody) (ubic : FieldUpdate GeoPoint) :
    UserUpdateDoc :=
  { nombre := b.nombre.map jsTrim,
    telefono :=
      match b.telefono with
      | none => .unchanged
      | some t =>
        if t == "" then .set ""          -- falsy: the truthiness guard leaves it as supplied
        else if jsTrim t == "" then .clear -- trimmed to empty: removed
        else .set (jsTrim t),
    skills :=
      b.skills.map fun arr =>
        (arr.map (fun sk => if sk == "" then "" else jsTrim sk)).filter (fun sk => sk != ""),
    password :=
      match b.password with
      | some p => if p == "" then some p else none
      | none => none,
    ubicacion := ubic }

/-- `runValidators: true` on a user update: schema validators run on the
`$set` paths only (`maxlength` on the trimmed name, the phone `match` regex,
`minlength` on the password, the coordinate validator; `required` does not
fire on a `$set`). -/
def userUpdateValid (d : UserUpdateDoc) : Bool :=
  (match d.nombre with
   | none => true
   | some n => decide ((jsTrim n).length ≤ 50)) &&
  (match d.telefono with
   | .set t => validTelefono (jsTrim t)
   | _ => true) &&
  (match d.password with
   | none => true
   | some p => decide (6 ≤ p.length)) &&
  (match d.ubicacion with
   | .set p => validCoords p.coordinates
   | _ => true)

/-- Application of a validated user update document (schema `trim` setters
included). -/
def applyUserUpdate (u : UserDoc) (d : UserUpdateDoc) : UserDoc :=
  { u with
    nombre := (d.nombre.map jsTrim).getD u.nombre,
    telefono :=
      match d.telefono with
      | .unchanged => u.telefono
      | .clear => none
      | .set t => some (jsTrim t),
    skills := (d.skills.map (fun l => l.map jsTrim)).getD u.skills,
    password := d.password.getD u.password,
    ubicacion :=
      match d.ubicacion with
      | .unchanged => u.ubicacion
      | .clear => none
      | .set p => some p }

/-- `updateUser` (`src/controllers/userController.js`): strips a truthy
`password`, validates/normalizes `nombre`, `telefono` and `skills`, checks
existence, processes a supplied location, and applies the update through
`findByIdAndUpdate` with `runValidators: true`. -/
def updateUser (db : List UserDoc) (id : ℕ) (b : UserUpdateBody) :
    UserResponse × List UserDoc :=
  if nombreBad b then
    ({ status := 400, success := false, message := "El nombre no puede estar vacío" }, db)
  else
    match findUser db id with
    | none => ({ status := 404, success := false, message := "Usuario no encontrado" }, db)
    | some _ =>
      let ubicProc : UbicProcessed :=
        match b.ubicacion with
        | none => .ok .unchanged
        | some ub => processUbicacion ub
      match ubicProc with
      | .invalid =>
        ({ status := 400, success := false,
           message := "Las coordenadas deben ser [longitud, latitud] válidas" }, db)
      | .badShape =>
        ({ status := 400, success := false,
           message := "Las coordenadas deben ser [longitud, latitud]" }, db)
      | .ok ubic =>
        if userUpdateValid (userUpdateDocOf b ubic) then
          let db' := db.map fun w =>
            if w.id == id then applyUserUpdate w (userUpdateDocOf b ubic) else w
          match findUser db' id with
          | some u' =>
            ({ status := 200, success := true,
               message := "Usuario actualizado exitosamente",
               user := some (userToJSON u') }, db')
          | none =>
            ({ status := 500, success := false, message := "Error interno del servidor" }, db')
        else
          ({ status := 400, success := false, message := "Datos de usuario inválidos" }, db)

/-! ### Service lifecycle (`src/models/Service.js`, `serviceController.js`) -/

/-- `serviceSchema.methods.puedeSerEditado`. -/
def ServiceDoc.puedeSerEditado (s : ServiceDoc) : Bool :=
  s.estado == "pendiente"

/-- `serviceSchema.methods.marcarEnProgreso`: guarded status write (the
`save()` it returns is modelled at the call site by `saveService`). -/
def ServiceDoc.marcarEnProgreso (s : ServiceDoc) : Except String ServiceDoc :=
  if s.estado == "pendiente" then .ok { s with estado := "en progreso" }
  else .error "Solo se pueden marcar servicios pendientes como en progreso"

/-- `serviceSchema.methods.marcarCompletado`. -/
def ServiceDoc.marcarCompletado (s : ServiceDoc) : Except String ServiceDoc :=
  if s.estado == "en progreso" then .ok { s with estado := "completado" }
  else .error "Solo se pueden marcar servicios en progreso como completados"

/-- `document.save()` of an existing service: full schema validation, then
the per-document write. -/
def saveService (db : List ServiceDoc) (s : ServiceDoc) :
    Except Unit (List ServiceDoc) :=
  if serviceDocValid s then
    .ok (db.map fun w => if w.id == s.id then s else w)
  else .error ()

/-- JSON envelope of the service-side endpoints, with the `data.service`
payload and its populated `creadoPor` owner object. -/
structure ServiceResponse where
  status : ℕ
  success : Bool
  message : String
  service : Option ServiceDoc := none
  owner : Option (List (String × String)) := none
deriving DecidableEq, Repr

/-- `POST /api/services` request body. -/
structure ServiceBody where
  titulo : String := ""
  descripcion : String := ""
  categoria : String := ""
  ubicacion : Option UbicBody := none
  precio : Option ℚ := none
  moneda : Option String := none
  duracionEstimada : Option ℚ := none
  unidadDuracion : Option String := none
deriving DecidableEq, Repr

/-- JavaScript `x || d` for an optional numeric body field (`0` is falsy,
but `0 || 0 = 0` and `0 || 1 = 1` as in the source defaults). -/
def jsOrQ (o : Option ℚ) (dflt : ℚ) : ℚ :=
  match o with
  | some q => if q == 0 then dflt else q
  | none => dflt

/-- JavaScript `x || d` for an optional string body field. -/
def jsOrS (o : Option String) (dflt : String) : String :=
  match o with
  | some s => if s == "" then dflt else s
  | none => dflt

/-- `createService` (`src/controllers/serviceController.js`): required-field
and location-shape checks, then a new document whose `creadoPor` is the
authenticated user (`req.user._id`) and whose commercial fields take the
`||`-defaults; `save()` validates before inserting. -/
def createService (users : List UserDoc) (db : List ServiceDoc) (userId nextId : ℕ)
    (b : ServiceBody) : ServiceResponse × List ServiceDoc :=
  if b.titulo == "" || b.descripcion == "" || b.categoria == "" then
    ({ status := 400, success := false,
       message := "Título, descripción y categoría son obligatorios" }, db)
  else
    let badUbic : Bool :=
      match b.ubicacion with
      | some u =>
        match u.coordinates with
        | none => true
        | some cs => cs.length != 2
      | none => false
    if badUbic then
      ({ status := 400, success := false,
         message := "Las coordenadas de ubicación deben ser [longitud, latitud]" }, db)
    else
      let doc : ServiceDoc :=
        { id := nextId, titulo := jsTrim b.titulo, descripcion := jsTrim b.descripcion,
          categoria := jsTrim b.categoria, estado := "pendiente", creadoPor := userId,
          ubicacion :=
            match b.ubicacion with
            | some u => (u.coordinates).map (fun cs => { coordinates := cs })
            | none => none,
          precio := jsOrQ b.precio 0, moneda := jsOrS b.moneda "MXN",
          duracionEstimada := jsOrQ b.duracionEstimada 1,
          unidadDuracion := jsOrS b.unidadDuracion "horas" }
      if serviceDocValid doc then
        ({ status := 201, success := true, message := "Servicio creado exitosamente",
           service := some doc,
           owner := populateOwner users populateFieldsShort doc }, db ++ [doc])
      else
        ({ status := 400, success := false, message := "Datos de servicio inválidos" }, db)

/-- `PUT /api/services/:id` request body (the claim-relevant fields;
`creadoPor` and `estado` are accepted verbatim by the source, which passes
`req.body` wholesale to `findByIdAndUpdate`). -/
structure ServiceUpdateBody where
  titulo : Option String := none
  descripcion : Option String := none
  categoria : Option String := none
  estado : Option String := none
  creadoPor : Option ℕ := none
  precio : Option ℚ := none
  ubicacion : Option UbicBody := none
deriving DecidableEq, Repr

/-- The update document handed to `Service.findByIdAndUpdate` after the
controller's location processing. -/
structure ServiceUpdateDoc where
  titulo : Option String := none
  descripcion : Option String := none
  categoria : Option String := none
  estado : Option String := none
  creadoPor : Option ℕ := none
  precio : Option ℚ := none
  ubicacion : FieldUpdate GeoPoint := .unchanged
deriving DecidableEq, Repr

/-- The update document `updateService` hands to `findByIdAndUpdate`: the
body fields verbatim plus the processed location effect. -/
def serviceUpdateDocOf (b : ServiceUpdateBody) (ubic : FieldUpdate GeoPoint) :
    ServiceUpdateDoc :=
  { titulo := b.titulo, descripcion := b.descripcion, categoria := b.categoria,
    estado := b.estado, creadoPor := b.creadoPor, precio := b.precio,
    ubicacion := ubic }

/-- `runValidators: true` on a service update: validators on the `$set`
paths (`maxlength`, the two enums, `min` on the price, the coordinate
validator; a reference id always casts). -/
def serviceUpdateValid (d : ServiceUpdateDoc) : Bool :=
  (match d.titulo with
   | none => true
   | some t => decide ((jsTrim t).length ≤ 100)) &&
  (match d.descripcion with
   | none => true
   | some t => decide ((jsTrim t).length ≤ 1000)) &&
  (match d.categoria with
   | none => true
   | some c => validCategorias.contains (jsTrim c)) &&
  (match d.estado with
   | none => true
   | some e => validEstados.contains e) &&
  (match d.precio with
   | none => true
   | some p => decide ((0 : ℚ) ≤ p)) &&
  (match d.ubicacion with
   | .set p => validCoords p.coordinates
   | _ => true)

/-- Application of a validated service update document (schema `trim`
setters included). -/
def applyServiceUpdate (s : ServiceDoc) (d : ServiceUpdateDoc) : ServiceDoc :=
  { s with
    titulo := (d.titulo.map jsTrim).getD s.titulo,
    descripcion := (d.descripcion.map jsTrim).getD s.descripcion,
    categoria := (d.categoria.map jsTrim).getD s.categoria,
    estado := d.estado.getD s.estado,
    creadoPor := d.creadoPor.getD s.creadoPor,
    precio := d.precio.getD s.precio,
    ubicacion :=
      match d.ubicacion with
      | .unchanged => s.ubicacion
      | .clear => none
      | .set p => some p }

/-- `updateService` (`src/controllers/serviceController.js`): not-found,
then ownership, then the pending-only edit gate, then the shared location
processing, then `findByIdAndUpdate` with `runValidators: true` and the
populated 200 response. -/
def updateService (users : List UserDoc) (db : List ServiceDoc) (userId id : ℕ)
    (b : ServiceUpdateBody) : ServiceResponse × List ServiceDoc :=
  match findService db id with
  | none => ({ status := 404, success := false, message := "Servicio no encontrado" }, db)
  | some s =>
    if s.creadoPor != userId then
      ({ status := 403, success := false,
         message := "No tienes permisos para editar este servicio" }, db)
    else if !s.puedeSerEditado then
      ({ status := 400, success := false,
         message := "Solo se pueden editar servicios en estado pendiente" }, db)
    else
      let ubicProc : UbicProcessed :=
        match b.ubicacion with
        | none => .ok .unchanged
        | some ub => processUbicacion ub
      match ubicProc with
      | .invalid =>
        ({ status := 400, success := false,
           message := "Las coordenadas deben ser [longitud, latitud] válidas" }, db)
      | .badShape =>
        ({ status := 400, success := false,
           message := "Las coordenadas deben ser [longitud, latitud]" }, db)
      | .ok ubic =>
        if serviceUpdateValid (serviceUpdateDocOf b ubic) then
          let s' := applyServiceUpdate s (serviceUpdateDocOf b ubic)
          let db' := db.map fun w =>
            if w.id == id then applyServiceUpdate w (serviceUpdateDocOf b ubic) else w
          ({ status := 200, success := true,
             message := "Servicio actualizado exitosamente",
             service := some s',
             owner := populateOwner users populateFieldsShort s' }, db')
        else
          ({ status := 400, success := false, message := "Datos de servicio inválidos" }, db)

/-- `updateServiceStatus` (`src/controllers/serviceController.js`): status
enum check, not-found, ownership, then the transition logic — the two model
methods for forward transitions, the direct write for
`en progreso → pendiente`, and the conflict error naming the current and
requested states for every other pair.  A model-method throw or a failed
`save()` falls into the generic catch (500). -/
def updateServiceStatus (users : List UserDoc) (db : List ServiceDoc)
    (userId id : ℕ) (nuevoEstado : String) : ServiceResponse × List ServiceDoc :=
  if !(validEstados.contains nuevoEstado) then
    ({ status := 400, success := false,
       message := "Estado inválido. Debe ser: pendiente, en progreso o completado" }, db)
  else
    match findService db id with
    | none => ({ status := 404, success := false, message := "Servicio no encontrado" }, db)
    | some s =>
      if s.creadoPor != userId then
        ({ status := 403, success := false,
           message := "No tienes permisos para cambiar el estado de este servicio" }, db)
      else
        let finish (step : Except String ServiceDoc) : ServiceResponse × List ServiceDoc :=
          match step with
          | .error _ =>
            ({ status := 500, success := false, message := "Error interno del servidor" }, db)
          | .ok s' =>
            match saveService db s' with
            | .error _ =>
              ({ status := 500, success := false, message := "Error interno del servidor" }, db)
            | .ok db' =>
              ({ status := 200, success := true,
                 message := "Estado del servicio cambiado a \"" ++ nuevoEstado ++ "\"",
                 service := some s',
                 owner := populateOwner users populateFieldsShort s' }, db')
        if nuevoEstado == "en progreso" && s.estado == "pendiente" then
          finish s.marcarEnProgreso
        else if nuevoEstado == "completado" && s.estado == "en progreso" then
          finish s.marcarCompletado
        else if nuevoEstado == "pendiente" && s.estado == "en progreso" then
          finish (.ok { s with estado := "pendiente" })
        else
          ({ status := 400, success := false,
             message := "No se puede cambiar de estado \"" ++ s.estado ++
               "\" a \"" ++ nuevoEstado ++ "\"" }, db)

/-- `getServiceById` (`src/controllers/serviceController.js`). -/
def getServiceById (users : List UserDoc) (db : List ServiceDoc) (id : ℕ) :
    ServiceResponse :=
  match findService db id with
  | none => { status := 404, success := false, message := "Servicio no encontrado" }
  | some s =>
    { status := 200, success := true, message := "Servicio obtenido exitosamente",
      service := some s, owner := populateOwner users populateFieldsLong s }

/-! ### List endpoints: store-query construction

`getUsers` and `getServices` delegate their reads to the external document
store; the handlers are modelled as building the store query.  The only
expression inside each `try` around the geographic parse is
`split`/`trim`/`parseFloat` applied to a string, all of which are total, so
the embedded parse is a total function and the `catch` branch
(`400 "Formato de ubicación inválido. Use: longitud,latitud"`) has no
counterpart: the model handlers return the 200 page unconditionally. -/

/-- The `$near` filter placed in the store query:
`{ $geometry: Point [lon, lat], $maxDistance: radio * 1000 }`. -/
structure GeoNearQuery where
  lon : Js
  lat : Js
  maxDistance : ℚ
deriving DecidableEq, Repr

/-- The non-location parts of a user-update body pass the controller's
empty-name check and the schema validators — i.e. processing reaches the
location logic and the final write is not rejected for an unrelated
reason. -/
def userBodyOtherFieldsOk (b : UserUpdateBody) : Bool :=
  !(nombreBad b) && userUpdateValid (userUpdateDocOf b .unchanged)

/-- The non-location parts of a service-update body pass the schema
validators. -/
def serviceBodyOtherFieldsOk (b : ServiceUpdateBody) : Bool :=
  serviceUpdateValid (serviceUpdateDocOf b .unchanged)

/-- The first two parsed components of a `ubicacion` query string:
`ubicacion.split(',').map(coord => parseFloat(coord.trim()))` followed by
the destructuring `[longitud, latitud]` (a missing component is
`undefined`, which `isNaN` maps to true, modelled as `nan`). -/
def ubicacionComponents (s : String) : Js × Js :=
  let nums := (splitChar ',' s.data).map fun c => jsParseFloat (jsTrim (String.mk c))
  (nums.getD 0 Js.nan, nums.getD 1 Js.nan)

/-- The geographic-query construction shared by `getUsers` and
`getServices`: a falsy `ubicacion` skips the block; otherwise the filter is
installed exactly when neither parsed component `isNaN`. -/
def buildGeoQuery (ubicacion : Option String) (radio : ℚ) : Option GeoNearQuery :=
  match ubicacion with
  | none => none
  | some s =>
    if s == "" then none
    else
      let lon := (ubicacionComponents s).1
      let lat := (ubicacionComponents s).2
      if !lon.jsIsNaN && !lat.jsIsNaN then
        some { lon := lon, lat := lat, maxDistance := radio * 1000 }
      else none

/-- The `finalQuery` of `getUsers`: optional role equality (only the two
enum values are accepted) plus the optional geographic filter. -/
structure UserListQuery where
  rol : Option String := none
  near : Option GeoNearQuery := none
deriving DecidableEq, Repr

/-- Query construction of `getUsers`. -/
def getUsersQuery (rol ubicacion : Option String) (radio : ℚ) : UserListQuery :=
  { rol :=
      match rol with
      | some r => if ["oferente", "solicitante"].contains r then some r else none
      | none => none,
    near := buildGeoQuery ubicacion radio }

/-- `getUsers` (`src/controllers/userController.js`): the built store query
plus the offset-pagination arithmetic; results are serialized with
`serializeUsersPage`. -/
structure UserListResult where
  status : ℕ
  message : String
  query : UserListQuery
  skip : ℤ
deriving DecidableEq, Repr

/-- `getUsers` handler model. -/
def getUsers (rol ubicacion : Option String) (radio : ℚ) (page limit : ℤ) :
    UserListResult :=
  { status := 200, message := "Usuarios obtenidos exitosamente",
    query := getUsersQuery rol ubicacion radio,
    skip := (page - 1) * limit }

/-- The `finalQuery` of `getServices`: optional category (any truthy value),
optional status (enum-checked), plus the optional geographic filter. -/
structure ServiceListQuery where
  categoria : Option String := none
  estado : Option String := none
  near : Option GeoNearQuery := none
deriving DecidableEq, Repr

/-- Query construction of `getServices`. -/
def getServicesQuery (categoria estado ubicacion : Option String) (radio : ℚ) :
    ServiceListQuery :=
  { categoria :=
      match categoria with
      | some c => if c == "" then none else some c
      | none => none,
    estado :=
      match estado with
      | some e => if e != "" && validEstados.contains e then some e else none
      | none => none,
    near := buildGeoQuery ubicacion radio }

/-- `getServices` result: the built store query, sort selection, pagination,
and the raw filter echo (`data.filters`). -/
structure ServiceListResult where
  status : ℕ
  message : String
  query : ServiceListQuery
  sortField : String
  sortDesc : Bool
  skip : ℤ
  filtersUbicacion : Option String
deriving DecidableEq, Repr

/-- `getServices` handler model (`src/controllers/serviceController.js`). -/
def getServices (categoria estado ubicacion : Option String) (radio : ℚ)
    (page limit : ℤ) (ordenarPor orden : String) : ServiceListResult :=
  { status := 200, message := "Servicios obtenidos exitosamente",
    query := getServicesQuery categoria estado ubicacion radio,
    sortField := ordenarPor, sortDesc := orden == "desc",
    skip := (page - 1) * limit,
    filtersUbicacion := ubicacion }

/-! ### Spec-side definitions

These follow the wording of the specification (not the sources) and are
compared against the embedded code. -/

/-- The transition table of spec §4.3: `pending → in_progress`,
`in_progress → completed`, `in_progress → pending`, nothing else. -/
def allowedTransition (fromE toE : String) : Bool :=
  (fromE == "pendiente" && toE == "en progreso") ||
  (fromE == "en progreso" && toE == "completado") ||
  (fromE == "en progreso" && toE == "pendiente")

/-- Spec wording for C8: coordinates "absent, an empty array, or both
null". -/
def coordsClearedShape (u : UbicBody) : Bool :=
  match u.coordinates with
  | none => true
  | some cs =>
    cs.isEmpty || (cs.getD 0 Js.nan == Js.null && cs.getD 1 Js.nan == Js.null)

/-- Spec wording for C8: "exactly 2 coordinates ... each in range
(longitude -180..180, latitude -90..90)". -/
def coordsGoodShape (u : UbicBody) : Bool :=
  match u.coordinates with
  | some [Js.num a, Js.num b] =>
    decide (-180 ≤ a ∧ a ≤ 180 ∧ -90 ≤ b ∧ b ≤ 90)
  | _ => false

/-- Claim wording for C10: the query string "parses into two finite
numbers". -/
def parsesToTwoFinite (s : String) : Bool :=
  match ubicacionComponents s with
  | (.num _, .num _) => true
  | _ => false

/-- The code's own test in the geographic block: neither component is
NaN. -/
def parsesToTwoNonNaN (s : String) : Bool :=
  !(ubicacionComponents s).1.jsIsNaN && !(ubicacionComponents s).2.jsIsNaN

/-- Concrete user document used by the witnesses. -/
def anaUser : UserDoc :=
  { id := 10, nombre := "Ana", email := "ana@x.com",
    password := bcryptHash "123456", rol := "oferente" }

/-- Concrete pending service document (owned by `anaUser`) used by the
witnesses. -/
def podarService : ServiceDoc :=
  { id := 1, titulo := "Podar", descripcion := "Jardin",
    categoria := "jardineria", estado := "pendiente", creadoPor := 10 }

/-- Concrete creation body used by the witnesses. -/
def podarBody : ServiceBody :=
  { titulo := "Podar", descripcion := "Jardin", categoria := "jardineria" }

/-- Concrete registration body used by the witnesses. -/
def regAna : RegisterBody :=
  { nombre := "Ana", email := "ana@x.com", password := "123456", rol := "oferente" }

/-- The same registration with the email differing only in letter case. -/
def regAnaUpper : RegisterBody :=
  { regAna with email := "ANA@X.com" }

/-! ### Store lemmas -/

/-- A `find?` hit matches its predicate: the found document carries the
queried id. -/
lemma id_of_findService {db : List ServiceDoc} {id : ℕ} {s : ServiceDoc}
    (h : findService db id = some s) : s.id = id := by
  unfold findService at h
  simpa using List.find?_some h

/-- A `find?` hit matches its predicate: the found document carries the
queried id. -/
lemma id_of_findUser {db : List UserDoc} {id : ℕ} {u : UserDoc}
    (h : findUser db id = some u) : u.id = id := by
  unfold findUser at h
  simpa using List.find?_some h

/-- A per-document write (`map` with an id-guarded replacement) commutes
with `find?` on that id, provided the replacement keeps the id. -/
lemma find_map_update {α : Type} (idf : α → ℕ) (db : List α) (id : ℕ) (f : α → α)
    (hf : ∀ w, idf w = id → idf (f w) = id) :
    (db.map fun w => if idf w = id then f w else w).find? (fun w => idf w == id) =
      (db.find? fun w => idf w == id).map f := by
  induction db with
  | nil => rfl
  | cons h t ih =>
    simp only [List.map_cons]
    by_cases hc : idf h = id
    · have h1 : (idf h == id) = true := by simpa using hc
      have h2 : (idf (f h) == id) = true := by simpa using hf h hc
      rw [if_pos hc]
      simp [List.find?_cons, h1, h2]
    · have h1 : (idf h == id) = false := by simpa using hc
      rw [if_neg hc]
      simp [List.find?_cons, h1, -List.find?_map]
      simpa using ih

/-- `find_map_update` specialized to the service store. -/
lemma findService_map_update (db : List ServiceDoc) (id : ℕ) (f : ServiceDoc → ServiceDoc)
    (hf : ∀ w, w.id = id → (f w).id = id) :
    findService (db.map fun w => if w.id = id then f w else w) id =
      (findService db id).map f :=
  find_map_update ServiceDoc.id db id f hf

/-- `find_map_update` specialized to the user store. -/
lemma findUser_map_update (db : List UserDoc) (id : ℕ) (f : UserDoc → UserDoc)
    (hf : ∀ w, w.id = id → (f w).id = id) :
    findUser (db.map fun w => if w.id = id then f w else w) id =
      (findUser db id).map f :=
  find_map_update UserDoc.id db id f hf

/-- Replacing the status of a schema-valid service with another enum value
keeps the document schema-valid. -/
lemma serviceDocValid_estado (s : ServiceDoc) (e : String)
    (h : serviceDocValid s = true) (he : validEstados.contains e = true) :
    serviceDocValid { s with estado := e } = true := by
  unfold serviceDocValid at h ⊢
  simp only [Bool.and_eq_true] at h ⊢
  obtain ⟨⟨⟨⟨⟨⟨⟨⟨⟨⟨a1, a2⟩, a3⟩, a4⟩, a5⟩, a6⟩, a7⟩, a8⟩, a9⟩, a10⟩, a11⟩ := h
  exact ⟨⟨⟨⟨⟨⟨⟨⟨⟨⟨a1, a2⟩, a3⟩, a4⟩, a5⟩, he⟩, a7⟩, a8⟩, a9⟩, a10⟩, a11⟩

/-! ### Claims -/

/-- **C1**: For every status-change request, `updateServiceStatus` first
fails with the 400 validation error when the requested status is not one of
the three enum values; then with 404 when no listing has the id; then with
the 403 authorization error when the requester is not the owner; and for an
owner it succeeds exactly on the transitions of the table
(`pendiente → en progreso`, `en progreso → completado`,
`en progreso → pendiente`), updating the stored status, while every other
pair — identical pairs included — fails with the conflict error naming the
current and requested states and leaves the store unchanged. -/
theorem updateServiceStatus_contract (users : List UserDoc) (db : List ServiceDoc)
    (uid id : ℕ) (nuevo : String) :
    (validEstados.contains nuevo = false →
      updateServiceStatus users db uid id nuevo =
        ({ status := 400, success := false,
           message := "Estado inválido. Debe ser: pendiente, en progreso o completado" }, db)) ∧
    (validEstados.contains nuevo = true → findService db id = none →
      updateServiceStatus users db uid id nuevo =
        ({ status := 404, success := false, message := "Servicio no encontrado" }, db)) ∧
    (∀ s, validEstados.contains nuevo = true → findService db id = some s →
      s.creadoPor ≠ uid →
      updateServiceStatus users db uid id nuevo =
        ({ status := 403, success := false,
           message := "No tienes permisos para cambiar el estado de este servicio" }, db)) ∧
    (∀ s, findService db id = some s → s.creadoPor = uid →
      allowedTransition s.estado nuevo = true → serviceDocValid s = true →
      (updateServiceStatus users db uid id nuevo).1.status = 200 ∧
      (updateServiceStatus users db uid id nuevo).1.message =
        "Estado del servicio cambiado a \"" ++ nuevo ++ "\"" ∧
      (findService (updateServiceStatus users db uid id nuevo).2 id).map ServiceDoc.estado =
        some nuevo) ∧
    (∀ s, validEstados.contains nuevo = true → findService db id = some s →
      s.creadoPor = uid → allowedTransition s.estado nuevo = false →
      updateServiceStatus users db uid id nuevo =
        ({ status := 400, success := false,
           message := "No se puede cambiar de estado \"" ++ s.estado ++ "\" a \"" ++
             nuevo ++ "\"" }, db)) := by
  refine ⟨?_, ?_, ?_, ?_, ?_⟩
  · intro h
    have h' : ¬ (nuevo ∈ validEstados) := by simpa using h
    simp [updateServiceStatus, h']
  · intro h hf
    have h' : nuevo ∈ validEstados := by simpa using h
    simp [updateServiceStatus, h', hf]
  · intro s h hf hown
    have h' : nuevo ∈ validEstados := by simpa using h
    simp [updateServiceStatus, h', hf, hown]
  · intro s hf hown htr hvalid
    have hid : s.id = id := id_of_findService hf
    have hmem : validEstados.contains nuevo = true := by
      simp only [allowedTransition, Bool.or_eq_true, Bool.and_eq_true, beq_iff_eq] at htr
      rcases htr with (⟨_, h2⟩ | ⟨_, h2⟩) | ⟨_, h2⟩ <;> subst h2 <;> decide
    simp only [allowedTransition, Bool.or_eq_true, Bool.and_eq_true, beq_iff_eq] at htr
    rcases htr with (⟨h1, h2⟩ | ⟨h1, h2⟩) | ⟨h1, h2⟩ <;> subst h2
    · have hsv : serviceDocValid { s with estado := "en progreso" } = true :=
        serviceDocValid_estado s _ hvalid (by decide)
      rw [hid, hown] at hsv
      simp [updateServiceStatus, hf, hown, h1, ServiceDoc.marcarEnProgreso,
        saveService, hsv, hid, findService_map_update, Option.map_map,
        show ("en progreso" ∈ validEstados) from by decide]
    · have hsv : serviceDocValid { s with estado := "completado" } = true :=
        serviceDocValid_estado s _ hvalid (by decide)
      rw [hid, hown] at hsv
      simp [updateServiceStatus, hf, hown, h1, ServiceDoc.marcarCompletado,
        saveService, hsv, hid, findService_map_update, Option.map_map,
        show ("completado" ∈ validEstados) from by decide]
    · have hsv : serviceDocValid { s with estado := "pendiente" } = true :=
        serviceDocValid_estado s _ hvalid (by decide)
      rw [hid, hown] at hsv
      simp [updateServiceStatus, hf, hown, h1, saveService, hsv, hid,
        findService_map_update, Option.map_map,
        show ("pendiente" ∈ validEstados) from by decide]
  · intro s h hf hown htr
    have h' : nuevo ∈ validEstados := by simpa using h
    have htr' : ((s.estado = "pendiente" → ¬ nuevo = "en progreso") ∧
        (s.estado = "en progreso" → ¬ nuevo = "completado")) ∧
        (s.estado = "en progreso" → ¬ nuevo = "pendiente") := by
      simpa [allowedTransition] using htr
    have d1 : ¬ (nuevo = "en progreso" ∧ s.estado = "pendiente") :=
      fun hp => htr'.1.1 hp.2 hp.1
    have d2 : ¬ (nuevo = "completado" ∧ s.estado = "en progreso") :=
      fun hp => htr'.1.2 hp.2 hp.1
    have d3 : ¬ (nuevo = "pendiente" ∧ s.estado = "en progreso") :=
      fun hp => htr'.2 hp.2 hp.1
    simp [updateServiceStatus, h', hf, hown, d1, d2, d3]

/-- Witness for `updateServiceStatus_contract`: on a concrete pending
listing owned by user 10, the owner's `pendiente → en progreso` request
succeeds and stores the new status, while `pendiente → completado` hits the
conflict branch with the message naming both states. -/
theorem updateServiceStatus_contract_witness :
    (updateServiceStatus [] [podarService] 10 1 "en progreso").1.status = 200 ∧
    (findService (updateServiceStatus [] [podarService] 10 1 "en progreso").2 1).map
      ServiceDoc.estado = some "en progreso" ∧
    (updateServiceStatus [] [podarService] 10 1 "completado").1.message =
      "No se puede cambiar de estado \"pendiente\" a \"completado\"" := by
  have h4 := (updateServiceStatus_contract [] [podarService] 10 1 "en progreso").2.2.2.1
  have h5 := (updateServiceStatus_contract [] [podarService] 10 1 "completado").2.2.2.2
  have ha := h4 podarService (by decide) (by decide) (by decide) (by decide)
  have hb := h5 podarService (by decide) (by decide) (by decide) (by decide)
  exact ⟨ha.1, ha.2.2, by rw [hb]; decide⟩

/-- **C2**: A listing whose status is `completado` is terminal: for every
requester (owner included) and every request body, neither
`updateServiceStatus` nor `updateService` changes the store, and the
listing's status stays `completado`. -/
theorem completado_terminal (users : List UserDoc) (db : List ServiceDoc)
    (uid id : ℕ) (s : ServiceDoc)
    (hf : findService db id = some s) (hc : s.estado = "completado") :
    (∀ nuevo, (updateServiceStatus users db uid id nuevo).2 = db) ∧
    (∀ b, (updateService users db uid id b).2 = db) ∧
    (∀ nuevo, (findService (updateServiceStatus users db uid id nuevo).2 id).map
        ServiceDoc.estado = some "completado") ∧
    (∀ b, (findService (updateService users db uid id b).2 id).map
        ServiceDoc.estado = some "completado") := by
  have hA : ∀ nuevo, (updateServiceStatus users db uid id nuevo).2 = db := by
    intro nuevo
    by_cases hv : nuevo ∈ validEstados
    · by_cases ho : s.creadoPor = uid
      · simp [updateServiceStatus, hf, hc, hv, ho]
      · simp [updateServiceStatus, hf, hv, ho]
    · simp [updateServiceStatus, hv]
  have hB : ∀ b, (updateService users db uid id b).2 = db := by
    intro b
    by_cases ho : s.creadoPor = uid
    · simp [updateService, hf, hc, ServiceDoc.puedeSerEditado, ho]
    · simp [updateService, hf, ho]
  refine ⟨hA, hB, fun nuevo => ?_, fun b => ?_⟩
  · rw [hA nuevo, hf]
    simp [hc]
  · rw [hB b, hf]
    simp [hc]

/-- Witness for `completado_terminal`: on a concrete completed listing, the
owner's own `pendiente` request and an arbitrary content update both leave
the store — and the status — untouched. -/
theorem completado_terminal_witness :
    (updateServiceStatus [] [{ podarService with estado := "completado" }] 10 1
        "pendiente").2 = [{ podarService with estado := "completado" }] ∧
    (updateService [] [{ podarService with estado := "completado" }] 10 1
        { titulo := some "Nuevo" }).2 = [{ podarService with estado := "completado" }] ∧
    (findService (updateService [] [{ podarService with estado := "completado" }] 10 1
        { titulo := some "Nuevo" }).2 1).map ServiceDoc.estado = some "completado" := by
  have h := completado_terminal [] [{ podarService with estado := "completado" }] 10 1
    { podarService with estado := "completado" } (by decide) (by decide)
  exact ⟨h.1 "pendiente", h.2.1 { titulo := some "Nuevo" },
    h.2.2.2 { titulo := some "Nuevo" }⟩

/-- **C3** (code-bug demonstration): `createService` does take the owner
from the authenticated identity (user 10), but `creadoPor` is *not*
immutable afterwards: `updateService` passes the client body wholesale to
`findByIdAndUpdate`, so the owner of a pending listing who sends
`{ creadoPor: 20 }` gets a 200 and the stored owner reference becomes 20 —
contradicting the spec's "immutable after creation". -/
theorem creadoPor_mutable_via_updateService :
    (findService (createService [] [] 10 1 podarBody).2 1).map
      ServiceDoc.creadoPor = some 10 ∧
    (updateService [] [podarService] 10 1 { creadoPor := some 20 }).1.status = 200 ∧
    (findService (updateService [] [podarService] 10 1 { creadoPor := some 20 }).2 1).map
      ServiceDoc.creadoPor = some 20 := by
  decide

/-- **C4**: `updateService` checks run in order — not-found (404), then
ownership (403, regardless of the listing's state), then the pending-only
gate (400 conflict) — and a 200 content update happens only on a listing
that is `pendiente` and owned by the requester. -/
theorem updateService_pending_only (users : List UserDoc) (db : List ServiceDoc)
    (uid id : ℕ) (b : ServiceUpdateBody) :
    (findService db id = none →
      updateService users db uid id b =
        ({ status := 404, success := false, message := "Servicio no encontrado" }, db)) ∧
    (∀ s, findService db id = some s → s.creadoPor ≠ uid →
      updateService users db uid id b =
        ({ status := 403, success := false,
           message := "No tienes permisos para editar este servicio" }, db)) ∧
    (∀ s, findService db id = some s → s.creadoPor = uid → s.estado ≠ "pendiente" →
      updateService users db uid id b =
        ({ status := 400, success := false,
           message := "Solo se pueden editar servicios en estado pendiente" }, db)) ∧
    (∀ s, findService db id = some s → (updateService users db uid id b).1.status = 200 →
      s.estado = "pendiente" ∧ s.creadoPor = uid) := by
  have hNF : findService db id = none →
      updateService users db uid id b =
        ({ status := 404, success := false, message := "Servicio no encontrado" }, db) := by
    intro h
    simp [updateService, h]
  have hOwn : ∀ s, findService db id = some s → s.creadoPor ≠ uid →
      updateService users db uid id b =
        ({ status := 403, success := false,
           message := "No tienes permisos para editar este servicio" }, db) := by
    intro s hf ho
    simp [updateService, hf, ho]
  have hState : ∀ s, findService db id = some s → s.creadoPor = uid →
      s.estado ≠ "pendiente" →
      updateService users db uid id b =
        ({ status := 400, success := false,
           message := "Solo se pueden editar servicios en estado pendiente" }, db) := by
    intro s hf ho hp
    simp [updateService, hf, ho, ServiceDoc.puedeSerEditado, hp]
  refine ⟨hNF, hOwn, hState, ?_⟩
  intro s hf h200
  by_cases ho : s.creadoPor = uid
  · by_cases hp : s.estado = "pendiente"
    · exact ⟨hp, ho⟩
    · rw [hState s hf ho hp] at h200
      simp at h200
  · rw [hOwn s hf ho] at h200
    simp at h200

/-- Witness for `updateService_pending_only`: on a concrete `completado`
listing, a non-owner gets the 403 (ownership is checked before state) and
the owner gets the pending-only 400. -/
theorem updateService_pending_only_witness :
    (updateService [] [{ podarService with estado := "completado" }] 99 1
        { titulo := some "Nuevo" }).1.status = 403 ∧
    (updateService [] [{ podarService with estado := "completado" }] 10 1
        { titulo := some "Nuevo" }).1.status = 400 := by
  have h := updateService_pending_only [] [{ podarService with estado := "completado" }]
    99 1 { titulo := some "Nuevo" }
  have h' := updateService_pending_only [] [{ podarService with estado := "completado" }]
    10 1 { titulo := some "Nuevo" }
  have ha := h.2.1 { podarService with estado := "completado" } (by decide) (by decide)
  have hb := h'.2.2.1 { podarService with estado := "completado" } (by decide) (by decide)
    (by decide)
  rw [ha, hb]
  exact ⟨rfl, rfl⟩

/-- **C5**: After a successful registration, a second registration whose
email is equal up to letter case always fails with a 400 and creates no
record; when the second body passes the schema checks (it would succeed on
an empty store) the failure is exactly the duplicate-key message
`El email ya está registrado`.  The persisted email is the lowercased
(and trimmed) input. -/
theorem duplicate_email_rejected (db : List UserDoc) (n₁ n₂ : ℕ)
    (b₁ b₂ : RegisterBody)
    (hok : (createUser db n₁ b₁).1.status = 201)
    (hdup : jsToLowerCase b₂.email = jsToLowerCase b₁.email) :
    (createUser db n₁ b₁).2 = db ++ [registerDoc n₁ b₁] ∧
    (registerDoc n₁ b₁).email = jsTrim (jsToLowerCase b₁.email) ∧
    (createUser (createUser db n₁ b₁).2 n₂ b₂).2 = (createUser db n₁ b₁).2 ∧
    (createUser (createUser db n₁ b₁).2 n₂ b₂).1.status = 400 ∧
    ((createUser [] n₂ b₂).1.status = 201 →
      (createUser (createUser db n₁ b₁).2 n₂ b₂).1.message =
        "El email ya está registrado") := by
  have hfail : ∀ dbx : List UserDoc,
      dbx.any (fun u => u.email == registerStoredEmail b₂) = true →
      (createUser dbx n₂ b₂).2 = dbx ∧ (createUser dbx n₂ b₂).1.status = 400 ∧
      ((createUser [] n₂ b₂).1.status = 201 →
        (createUser dbx n₂ b₂).1.message = "El email ya está registrado") := by
    intro dbx hx
    cases hC1 : registerRequiredMissing b₂ with
    | true => simp [createUser, hC1]
    | false =>
      cases hC2 : registerBadUbic b₂ with
      | true => simp [createUser, hC1, hC2]
      | false =>
        cases hC3 : registerValid b₂ with
        | false => simp [createUser, hC1, hC2, hC3]
        | true => simp [createUser, hC1, hC2, hC3, hx]
  cases hB1 : registerRequiredMissing b₁ with
  | true => simp [createUser, hB1] at hok
  | false =>
    cases hB2 : registerBadUbic b₁ with
    | true => simp [createUser, hB1, hB2] at hok
    | false =>
      cases hB3 : registerValid b₁ with
      | false => simp [createUser, hB1, hB2, hB3] at hok
      | true =>
        cases hB4 : db.any (fun u => u.email == registerStoredEmail b₁) with
        | true => simp [createUser, hB1, hB2, hB3, hB4] at hok
        | false =>
          have hdb : (createUser db n₁ b₁).2 = db ++ [registerDoc n₁ b₁] := by
            simp [createUser, hB1, hB2, hB3, hB4]
          have hmail : registerStoredEmail b₂ = registerStoredEmail b₁ := by
            unfold registerStoredEmail
            rw [hdup]
          have hdup2 : ((createUser db n₁ b₁).2).any
              (fun u => u.email == registerStoredEmail b₂) = true := by
            rw [hdb, hmail]
            simp [registerDoc]
          obtain ⟨hf1, hf2, hf3⟩ := hfail (createUser db n₁ b₁).2 hdup2
          exact ⟨hdb, rfl, hf1, hf2, hf3⟩

/-- Witness for `duplicate_email_rejected`: registering Ana and then
re-registering with `ANA@X.com` yields the 400 duplicate message and leaves
the store unchanged. -/
theorem duplicate_email_rejected_witness :
    (createUser (createUser [] 1 regAna).2 2 regAnaUpper).1.status = 400 ∧
    (createUser (createUser [] 1 regAna).2 2 regAnaUpper).1.message =
      "El email ya está registrado" ∧
    (createUser (createUser [] 1 regAna).2 2 regAnaUpper).2 =
      (createUser [] 1 regAna).2 := by
  have h := duplicate_email_rejected [] 1 2 regAna regAnaUpper (by decide) (by decide)
  exact ⟨h.2.2.2.1, h.2.2.2.2 (by decide), h.2.2.1⟩

/-- `toJSON` never emits the password key. -/
lemma no_password_userToJSON (u : UserDoc) :
    "password" ∉ (userToJSON u).map Prod.fst := by
  cases ht : u.telefono <;> cases hb : u.ubicacion <;>
    simp [userToJSON, userToObject, ht, hb]

/-- `.select('-password')` never emits the password key. -/
lemma no_password_select (u : UserDoc) :
    "password" ∉ (selectWithoutPassword u).map Prod.fst := by
  cases ht : u.telefono <;> cases hb : u.ubicacion <;>
    simp [selectWithoutPassword, userToObject, ht, hb]

/-- Pair form of `no_password_userToJSON`. -/
lemma no_password_pair_userToJSON (u : UserDoc) (x : String) :
    ("password", x) ∉ userToJSON u :=
  fun hx => no_password_userToJSON u (List.mem_map.mpr ⟨_, hx, rfl⟩)

/-- Pair form of `no_password_select`. -/
lemma no_password_pair_select (u : UserDoc) (x : String) :
    ("password", x) ∉ selectWithoutPassword u :=
  fun hx => no_password_select u (List.mem_map.mpr ⟨_, hx, rfl⟩)

/-- The short populate projection never emits the password key. -/
lemma no_password_pair_populateShort (u : UserDoc) (x : String) :
    ("password", x) ∉ populateProjection u populateFieldsShort := by
  cases ht : u.telefono <;> cases hb : u.ubicacion <;>
    simp [populateProjection, populateFieldsShort, userToObject, ht, hb]

/-- The long populate projection never emits the password key. -/
lemma no_password_pair_populateLong (u : UserDoc) (x : String) :
    ("password", x) ∉ populateProjection u populateFieldsLong := by
  cases ht : u.telefono <;> cases hb : u.ubicacion <;>
    simp [populateProjection, populateFieldsLong, userToObject, ht, hb]

/-- The owner join with the short field list never emits the password key. -/
lemma no_password_pair_ownerShort (users : List UserDoc) (s : ServiceDoc) (x : String) :
    ("password", x) ∉ (populateOwner users populateFieldsShort s).getD [] := by
  cases hm : findUser users s.creadoPor <;>
    simp [populateOwner, hm, no_password_pair_populateShort]

/-- The owner join with the long field list never emits the password key. -/
lemma no_password_pair_ownerLong (users : List UserDoc) (s : ServiceDoc) (x : String) :
    ("password", x) ∉ (populateOwner users populateFieldsLong s).getD [] := by
  cases hm : findUser users s.creadoPor <;>
    simp [populateOwner, hm, no_password_pair_populateLong]

set_option maxHeartbeats 2000000 in
/-- **C6**: No API response ever serializes the hashed password: the user
payload of register, login, `getMe`, user fetch/update, the
`select('-password')` page serialization of the user list, and the
populated `creadoPor` owner object of every service response all lack the
`password` key. -/
theorem password_never_serialized :
    (∀ u : UserDoc, "password" ∉ (userToJSON u).map Prod.fst) ∧
    (∀ u : UserDoc, "password" ∉ (selectWithoutPassword u).map Prod.fst) ∧
    (∀ results : List UserDoc,
      "password" ∉ (serializeUsersPage results).flatten.map Prod.fst) ∧
    (∀ db e p, "password" ∉ (((login db e p).user).getD []).map Prod.fst) ∧
    (∀ u, "password" ∉ (((getMe u).user).getD []).map Prod.fst) ∧
    (∀ db n b, "password" ∉ (((createUser db n b).1.user).getD []).map Prod.fst) ∧
    (∀ db i, "password" ∉ (((getUserById db i).user).getD []).map Prod.fst) ∧
    (∀ db i b, "password" ∉ (((updateUser db i b).1.user).getD []).map Prod.fst) ∧
    (∀ users db uid nid b,
      "password" ∉ (((createService users db uid nid b).1.owner).getD []).map Prod.fst) ∧
    (∀ users db uid i b,
      "password" ∉ (((updateService users db uid i b).1.owner).getD []).map Prod.fst) ∧
    (∀ users db uid i e,
      "password" ∉ (((updateServiceStatus users db uid i e).1.owner).getD []).map Prod.fst) ∧
    (∀ users db i,
      "password" ∉ (((getServiceById users db i).owner).getD []).map Prod.fst) := by
  refine ⟨no_password_userToJSON, no_password_select, ?_, ?_, ?_, ?_, ?_, ?_, ?_, ?_, ?_, ?_⟩
  · intro results hx
    unfold serializeUsersPage at hx
    obtain ⟨pair, hpair, hfst⟩ := List.mem_map.mp hx
    obtain ⟨l, hl, hpl⟩ := List.mem_flatten.mp hpair
    obtain ⟨u, hu, rfl⟩ := List.mem_map.mp hl
    exact no_password_select u (List.mem_map.mpr ⟨pair, hpl, hfst⟩)
  · intro db e p
    unfold login
    (repeat' split) <;>
      simp [invalidCredentials, no_password_pair_userToJSON]
  · intro u
    simp [getMe, no_password_pair_userToJSON]
  · intro db n b
    unfold createUser
    (repeat' split) <;> simp [no_password_pair_userToJSON]
  · intro db i
    unfold getUserById
    (repeat' split) <;> simp [no_password_pair_select]
  · intro db i b
    unfold updateUser
    repeat' split
    all_goals simp [no_password_pair_userToJSON]
    all_goals repeat' split
    all_goals simp [no_password_pair_userToJSON]
  · intro users db uid nid b
    unfold createService
    repeat' split
    all_goals simp [no_password_pair_ownerShort]
    all_goals repeat' split
    all_goals simp [no_password_pair_ownerShort]
  · intro users db uid i b
    unfold updateService
    repeat' split
    all_goals simp [no_password_pair_ownerShort]
    all_goals repeat' split
    all_goals simp [no_password_pair_ownerShort]
  · intro users db uid i e
    unfold updateServiceStatus
    repeat' split
    all_goals simp [no_password_pair_ownerShort]
    all_goals repeat' split
    all_goals simp [no_password_pair_ownerShort]
  · intro users db i
    unfold getServiceById
    repeat' split
    all_goals simp [no_password_pair_ownerLong]

/-- **C7**: For non-empty credentials, an unknown email and a wrong
password for an existing email produce the *same* response value — the
generic 401 `Credenciales inválidas` — so the reply does not reveal whether
the email is registered; a correct login returns 200 with a non-empty token
and the `toJSON` user (whose serialization carries no password key). -/
theorem login_indistinguishable_failures (db : List UserDoc) (email password : String)
    (he : email ≠ "") (hp : password ≠ "") :
    (lookupByEmail db (jsToLowerCase email) = none →
      login db email password = invalidCredentials) ∧
    (∀ u, lookupByEmail db (jsToLowerCase email) = some u →
      bcryptCompare password u.password = false →
      login db email password = invalidCredentials) ∧
    (∀ u, lookupByEmail db (jsToLowerCase email) = some u →
      bcryptCompare password u.password = true →
      (login db email password).status = 200 ∧
      (login db email password).token = some (generateToken u.id) ∧
      generateToken u.id ≠ "" ∧
      (login db email password).user = some (userToJSON u)) := by
  have hcond : (email == "" || password == "") = false := by
    simp [he, hp]
  refine ⟨?_, ?_, ?_⟩
  · intro hm
    simp [login, hcond, hm]
  · intro u hm hc
    simp [login, hcond, hm, hc]
  · intro u hm hc
    refine ⟨?_, ?_, ?_, ?_⟩
    · simp [login, hcond, hm, hc]
    · simp [login, hcond, hm, hc]
    · intro hempty
      have hl := congrArg String.length (show generateToken u.id = "" from hempty)
      rw [generateToken, String.length_append, String.length_append] at hl
      have h1 : "header.".length = 7 := by decide
      have h2 : ".sig".length = 4 := by decide
      have h3 : "".length = 0 := by decide
      omega
    · simp [login, hcond, hm, hc]

/-- Witness for `login_indistinguishable_failures`: with Ana registered,
the unknown-email failure and the wrong-password failure evaluate to the
same 401 response value, and the correct login yields 200 with the
non-empty token. -/
theorem login_indistinguishable_failures_witness :
    login [registerDoc 1 regAna] "nobody@x.com" "123456" = invalidCredentials ∧
    login [registerDoc 1 regAna] "Ana@x.com" "wrongpw" = invalidCredentials ∧
    (login [registerDoc 1 regAna] "Ana@x.com" "123456").status = 200 ∧
    (login [registerDoc 1 regAna] "Ana@x.com" "123456").token =
      some (generateToken 1) := by
  have h1 := (login_indistinguishable_failures [registerDoc 1 regAna] "nobody@x.com"
    "123456" (by decide) (by decide)).1 (by decide)
  have h2 := (login_indistinguishable_failures [registerDoc 1 regAna] "Ana@x.com"
    "wrongpw" (by decide) (by decide)).2.1 (registerDoc 1 regAna) (by decide) (by decide)
  have h3 := (login_indistinguishable_failures [registerDoc 1 regAna] "Ana@x.com"
    "123456" (by decide) (by decide)).2.2 (registerDoc 1 regAna) (by decide) (by decide)
  exact ⟨h1, h2, h3.1, h3.2.1⟩

/-- The user-update validator splits into its non-location and location
parts. -/
lemma userUpdateValid_split (b : UserUpdateBody) (ubic : FieldUpdate GeoPoint) :
    userUpdateValid (userUpdateDocOf b ubic) =
      (userUpdateValid (userUpdateDocOf b .unchanged) &&
        (match ubic with
         | FieldUpdate.set p => validCoords p.coordinates
         | _ => true)) := by
  unfold userUpdateValid userUpdateDocOf
  cases ubic <;> simp

/-- The service-update validator splits into its non-location and location
parts. -/
lemma serviceUpdateValid_split (b : ServiceUpdateBody) (ubic : FieldUpdate GeoPoint) :
    serviceUpdateValid (serviceUpdateDocOf b ubic) =
      (serviceUpdateValid (serviceUpdateDocOf b .unchanged) &&
        (match ubic with
         | FieldUpdate.set p => validCoords p.coordinates
         | _ => true)) := by
  unfold serviceUpdateValid serviceUpdateDocOf
  cases ubic <;> simp

/-- A cleared-shape location body (absent/empty/both-null coordinates) is
processed to an explicit clear. -/
lemma processUbicacion_cleared (u : UbicBody) (h : coordsClearedShape u = true) :
    processUbicacion u = .ok .clear := by
  cases hc : u.coordinates with
  | none => simp [processUbicacion, hc]
  | some cs =>
    simp only [coordsClearedShape, hc] at h
    cases cs with
    | nil => simp [processUbicacion, hc]
    | cons e t =>
      simp only [List.isEmpty_cons, Bool.false_or] at h
      obtain ⟨h1, h2⟩ : e = Js.null ∧ t[0]?.getD Js.nan = Js.null := by simpa using h
      simp [processUbicacion, hc, h1, h2]

/-- A good-shape location body (exactly two in-range finite numbers) is
processed to the normalized point. -/
lemma processUbicacion_good (u : UbicBody) (a c : ℚ)
    (hc : u.coordinates = some [Js.num a, Js.num c])
    (h1 : -180 ≤ a) (h2 : a ≤ 180) (h3 : -90 ≤ c) (h4 : c ≤ 90) :
    processUbicacion u = .ok (.set { coordinates := [Js.num a, Js.num c] }) := by
  have k1 : ¬ a < -180 := not_lt.mpr h1
  have k2 : ¬ (180 : ℚ) < a := not_lt.mpr h2
  have k3 : ¬ c < -90 := not_lt.mpr h3
  have k4 : ¬ (90 : ℚ) < c := not_lt.mpr h4
  simp [processUbicacion, hc, Js.jsIsNaN, Js.jsLt, Js.jsGt, Js.jsParseFloatVal,
    k1, k2, k3, k4]

/-- Any location body that is neither of the cleared shape nor of the good
shape either fails the controller's checks directly or is formatted into a
point the schema validator rejects. -/
lemma processUbicacion_other (u : UbicBody)
    (hcl : coordsClearedShape u = false) (hg : coordsGoodShape u = false) :
    processUbicacion u = .invalid ∨ processUbicacion u = .badShape ∨
    ∃ p, processUbicacion u = .ok (.set p) ∧ validCoords p.coordinates = false := by
  cases hc : u.coordinates with
  | none => simp [coordsClearedShape, hc] at hcl
  | some cs =>
    cases cs with
    | nil => simp [coordsClearedShape, hc] at hcl
    | cons e₁ rest =>
      cases rest with
      | nil =>
        right; left
        simp [processUbicacion, hc]
      | cons e₂ rest₂ =>
        cases rest₂ with
        | cons e₃ r₃ =>
          simp only [coordsClearedShape, hc, List.isEmpty_cons, Bool.false_or] at hcl
          have hcl' : ¬ (e₁ = Js.null ∧ e₂ = Js.null) := by simpa using hcl
          right; left
          simp [processUbicacion, hc]
          exact fun ha hb => hcl' ⟨ha, hb⟩
        | nil =>
          simp only [coordsClearedShape, hc, List.isEmpty_cons, Bool.false_or] at hcl
          simp only [coordsGoodShape, hc] at hg
          cases e₁ with
          | num a =>
            cases e₂ with
            | num c =>
              simp only [decide_eq_false_iff_not, not_and, not_le] at hg
              by_cases k1 : a < -180
              · left
                simp [processUbicacion, hc, Js.jsIsNaN, Js.jsLt, Js.jsGt, k1]
              · by_cases k2 : (180 : ℚ) < a
                · left
                  simp [processUbicacion, hc, Js.jsIsNaN, Js.jsLt, Js.jsGt, k1, k2]
                · by_cases k3 : c < -90
                  · left
                    simp [processUbicacion, hc, Js.jsIsNaN, Js.jsLt, Js.jsGt, k1, k2, k3]
                  · by_cases k4 : (90 : ℚ) < c
                    · left
                      simp [processUbicacion, hc, Js.jsIsNaN, Js.jsLt, Js.jsGt,
                        k1, k2, k3, k4]
                    · exfalso
                      have := hg (le_of_not_lt k1) (le_of_not_lt k2) (le_of_not_lt k3)
                      exact absurd (le_of_not_lt k4) (not_le.mpr this)
            | null =>
              by_cases k1 : a < -180
              · left
                simp [processUbicacion, hc, Js.jsIsNaN, Js.jsLt, Js.jsGt, k1]
              · by_cases k2 : (180 : ℚ) < a
                · left
                  simp [processUbicacion, hc, Js.jsIsNaN, Js.jsLt, Js.jsGt, k1, k2]
                · right; right
                  refine ⟨{ coordinates := [Js.num a, Js.nan] }, ?_, ?_⟩
                  · simp [processUbicacion, hc, Js.jsIsNaN, Js.jsLt, Js.jsGt,
                      Js.jsParseFloatVal, k1, k2]
                  · simp [validCoords, Js.jsGe, Js.jsLe]
            | nan => left; simp [processUbicacion, hc, Js.jsIsNaN]
            | inf => left; simp [processUbicacion, hc, Js.jsIsNaN, Js.jsLt, Js.jsGt]
            | neginf => left; simp [processUbicacion, hc, Js.jsIsNaN, Js.jsLt, Js.jsGt]
          | null =>
            cases e₂ with
            | num c =>
              by_cases k3 : c < -90
              · left
                simp [processUbicacion, hc, Js.jsIsNaN, Js.jsLt, Js.jsGt, k3]
              · by_cases k4 : (90 : ℚ) < c
                · left
                  simp [processUbicacion, hc, Js.jsIsNaN, Js.jsLt, Js.jsGt, k3, k4]
                · right; right
                  refine ⟨{ coordinates := [Js.nan, Js.num c] }, ?_, ?_⟩
                  · simp [processUbicacion, hc, Js.jsIsNaN, Js.jsLt, Js.jsGt,
                      Js.jsParseFloatVal, k3, k4]
                  · simp [validCoords, Js.jsGe, Js.jsLe]
            | null => simp at hcl
            | nan => left; simp [processUbicacion, hc, Js.jsIsNaN]
            | inf => left; simp [processUbicacion, hc, Js.jsIsNaN, Js.jsLt, Js.jsGt]
            | neginf => left; simp [processUbicacion, hc, Js.jsIsNaN, Js.jsLt, Js.jsGt]
          | nan => left; simp [processUbicacion, hc, Js.jsIsNaN]
          | inf =>
            left
            simp [processUbicacion, hc, Js.jsIsNaN, Js.jsLt, Js.jsGt]
          | neginf =>
            left
            simp [processUbicacion, hc, Js.jsIsNaN, Js.jsLt, Js.jsGt]

/-- The applied user update keeps the document id. -/
lemma applyUserUpdate_id (w : UserDoc) (d : UserUpdateDoc) :
    (applyUserUpdate w d).id = w.id := rfl

/-- The applied service update keeps the document id. -/
lemma applyServiceUpdate_id (w : ServiceDoc) (d : ServiceUpdateDoc) :
    (applyServiceUpdate w d).id = w.id := rfl

/-- Location component of an applied user update. -/
lemma applyUserUpdate_ubic (w : UserDoc) (d : UserUpdateDoc) :
    (applyUserUpdate w d).ubicacion =
      (match d.ubicacion with
       | FieldUpdate.unchanged => w.ubicacion
       | FieldUpdate.clear => none
       | FieldUpdate.set p => some p) := rfl

/-- Location component of an applied service update. -/
lemma applyServiceUpdate_ubic (w : ServiceDoc) (d : ServiceUpdateDoc) :
    (applyServiceUpdate w d).ubicacion =
      (match d.ubicacion with
       | FieldUpdate.unchanged => w.ubicacion
       | FieldUpdate.clear => none
       | FieldUpdate.set p => some p) := rfl

/-- The controller-built user update document carries the processed
location effect verbatim. -/
lemma userUpdateDocOf_ubic (b : UserUpdateBody) (ubic : FieldUpdate GeoPoint) :
    (userUpdateDocOf b ubic).ubicacion = ubic := rfl

/-- The controller-built service update document carries the processed
location effect verbatim. -/
lemma serviceUpdateDocOf_ubic (b : ServiceUpdateBody) (ubic : FieldUpdate GeoPoint) :
    (serviceUpdateDocOf b ubic).ubicacion = ubic := rfl

/-- **C8**: For an update (of a user, and likewise of an owned pending
listing) that supplies a location object whose other fields pass their own
checks: absent/empty/both-null coordinates clear the stored location
(200); exactly two in-range finite coordinates persist the normalized
point (200); any other coordinate shape fails with a 400 validation error
and leaves the store unchanged. -/
theorem location_normalization (db : List UserDoc) (i : ℕ) (b : UserUpdateBody)
    (usr : UserDoc) (u : UbicBody) (users : List UserDoc) (sdb : List ServiceDoc)
    (uid sid : ℕ) (sb : ServiceUpdateBody) (s : ServiceDoc)
    (hfind : findUser db i = some usr)
    (hub : b.ubicacion = some u)
    (hok : userBodyOtherFieldsOk b = true)
    (hsf : findService sdb sid = some s)
    (hso : s.creadoPor = uid)
    (hsp : s.estado = "pendiente")
    (hsub : sb.ubicacion = some u)
    (hsok : serviceBodyOtherFieldsOk sb = true) :
    (coordsClearedShape u = true →
      (updateUser db i b).1.status = 200 ∧
      (findUser (updateUser db i b).2 i).map UserDoc.ubicacion = some none ∧
      (updateService users sdb uid sid sb).1.status = 200 ∧
      (findService (updateService users sdb uid sid sb).2 sid).map
        ServiceDoc.ubicacion = some none) ∧
    (∀ a c : ℚ, u.coordinates = some [Js.num a, Js.num c] →
      -180 ≤ a → a ≤ 180 → -90 ≤ c → c ≤ 90 →
      (updateUser db i b).1.status = 200 ∧
      (findUser (updateUser db i b).2 i).map UserDoc.ubicacion =
        some (some { coordinates := [Js.num a, Js.num c] }) ∧
      (updateService users sdb uid sid sb).1.status = 200 ∧
      (findService (updateService users sdb uid sid sb).2 sid).map
        ServiceDoc.ubicacion = some (some { coordinates := [Js.num a, Js.num c] })) ∧
    (coordsClearedShape u = false → coordsGoodShape u = false →
      (updateUser db i b).1.status = 400 ∧ (updateUser db i b).2 = db ∧
      (updateService users sdb uid sid sb).1.status = 400 ∧
      (updateService users sdb uid sid sb).2 = sdb) := by
  have hok' := hok
  unfold userBodyOtherFieldsOk at hok'
  simp only [Bool.and_eq_true] at hok'
  obtain ⟨hnb', hbase⟩ := hok'
  have hnb : nombreBad b = false := by simpa using hnb'
  have hsbase : serviceUpdateValid (serviceUpdateDocOf sb .unchanged) = true := hsok
  refine ⟨?_, ?_, ?_⟩
  · intro hcl
    have hproc := processUbicacion_cleared u hcl
    have hval : userUpdateValid (userUpdateDocOf b .clear) = true := by
      rw [userUpdateValid_split, hbase]
      simp
    have hsval : serviceUpdateValid (serviceUpdateDocOf sb .clear) = true := by
      rw [serviceUpdateValid_split, hsbase]
      simp
    refine ⟨?_, ?_, ?_, ?_⟩
    · simp [updateUser, hnb, hfind, hub, hproc, hval, findUser_map_update,
        applyUserUpdate]
    · simp [updateUser, hnb, hfind, hub, hproc, hval, findUser_map_update,
        applyUserUpdate_id, applyUserUpdate_ubic, userUpdateDocOf_ubic]
    · simp [updateService, hsf, hso, hsp, ServiceDoc.puedeSerEditado, hsub, hproc,
        hsval, findService_map_update, applyServiceUpdate]
    · simp [updateService, hsf, hso, hsp, ServiceDoc.puedeSerEditado, hsub, hproc,
        hsval, findService_map_update, applyServiceUpdate_id, applyServiceUpdate_ubic,
        serviceUpdateDocOf_ubic]
  · intro a c hcc h1 h2 h3 h4
    have hproc := processUbicacion_good u a c hcc h1 h2 h3 h4
    have hvc : validCoords [Js.num a, Js.num c] = true := by
      simp [validCoords, Js.jsGe, Js.jsLe, h1, h2, h3, h4]
    have hval : userUpdateValid (userUpdateDocOf b
        (.set { coordinates := [Js.num a, Js.num c] })) = true := by
      rw [userUpdateValid_split, hbase]
      simpa using hvc
    have hsval : serviceUpdateValid (serviceUpdateDocOf sb
        (.set { coordinates := [Js.num a, Js.num c] })) = true := by
      rw [serviceUpdateValid_split, hsbase]
      simpa using hvc
    refine ⟨?_, ?_, ?_, ?_⟩
    · simp [updateUser, hnb, hfind, hub, hproc, hval, findUser_map_update,
        applyUserUpdate]
    · simp [updateUser, hnb, hfind, hub, hproc, hval, findUser_map_update,
        applyUserUpdate_id, applyUserUpdate_ubic, userUpdateDocOf_ubic]
    · simp [updateService, hsf, hso, hsp, ServiceDoc.puedeSerEditado, hsub, hproc,
        hsval, findService_map_update, applyServiceUpdate]
    · simp [updateService, hsf, hso, hsp, ServiceDoc.puedeSerEditado, hsub, hproc,
        hsval, findService_map_update, applyServiceUpdate_id, applyServiceUpdate_ubic,
        serviceUpdateDocOf_ubic]
  · intro hcl hg
    rcases processUbicacion_other u hcl hg with h | h | ⟨p, h, hv⟩
    · refine ⟨?_, ?_, ?_, ?_⟩ <;>
        simp [updateUser, updateService, hnb, hfind, hub, hsf, hso, hsp,
          ServiceDoc.puedeSerEditado, hsub, h]
    · refine ⟨?_, ?_, ?_, ?_⟩ <;>
        simp [updateUser, updateService, hnb, hfind, hub, hsf, hso, hsp,
          ServiceDoc.puedeSerEditado, hsub, h]
    · have hval : userUpdateValid (userUpdateDocOf b (.set p)) = false := by
        rw [userUpdateValid_split, hbase]
        simp [hv]
      have hsval : serviceUpdateValid (serviceUpdateDocOf sb (.set p)) = false := by
        rw [serviceUpdateValid_split, hsbase]
        simp [hv]
      refine ⟨?_, ?_, ?_, ?_⟩ <;>
        simp [updateUser, updateService, hnb, hfind, hub, hsf, hso, hsp,
          ServiceDoc.puedeSerEditado, hsub, h, hval, hsval]

/-- Witness for `location_normalization`: on concrete user and listing
stores, a both-null pair clears the location, `[5, 5]` persists the
normalized point, and `[200, 0]` fails with a 400 leaving the stores
unchanged. -/
theorem location_normalization_witness :
    (findUser (updateUser [anaUser] 10
        { ubicacion := some { coordinates := some [Js.null, Js.null] } }).2 10).map
      UserDoc.ubicacion = some none ∧
    (findService (updateService [] [podarService] 10 1
        { ubicacion := some { coordinates := some [Js.num 5, Js.num 5] } }).2 1).map
      ServiceDoc.ubicacion = some (some { coordinates := [Js.num 5, Js.num 5] }) ∧
    (updateUser [anaUser] 10
        { ubicacion := some { coordinates := some [Js.num 200, Js.num 0] } }).1.status =
      400 ∧
    (updateUser [anaUser] 10
        { ubicacion := some { coordinates := some [Js.num 200, Js.num 0] } }).2 =
      [anaUser] := by
  have h1 := location_normalization [anaUser] 10
    { ubicacion := some { coordinates := some [Js.null, Js.null] } } anaUser
    { coordinates := some [Js.null, Js.null] } [] [podarService] 10 1
    { ubicacion := some { coordinates := some [Js.null, Js.null] } } podarService
    (by decide) (by decide) (by decide) (by decide) (by decide) (by decide)
    (by decide) (by decide)
  have h2 := location_normalization [anaUser] 10
    { ubicacion := some { coordinates := some [Js.num 5, Js.num 5] } } anaUser
    { coordinates := some [Js.num 5, Js.num 5] } [] [podarService] 10 1
    { ubicacion := some { coordinates := some [Js.num 5, Js.num 5] } } podarService
    (by decide) (by decide) (by decide) (by decide) (by decide) (by decide)
    (by decide) (by decide)
  have h3 := location_normalization [anaUser] 10
    { ubicacion := some { coordinates := some [Js.num 200, Js.num 0] } } anaUser
    { coordinates := some [Js.num 200, Js.num 0] } [] [podarService] 10 1
    { ubicacion := some { coordinates := some [Js.num 200, Js.num 0] } } podarService
    (by decide) (by decide) (by decide) (by decide) (by decide) (by decide)
    (by decide) (by decide)
  have ha := (h1.1 (by decide)).2.1
  have hb := ((h2.2.1 5 5 (by decide) (by norm_num) (by norm_num) (by norm_num)
    (by norm_num))).2.2.2
  have hcx := h3.2.2 (by decide) (by decide)
  exact ⟨ha, hb, hcx.1, hcx.2.1⟩

/-- A validated user update document carries no password write: the
controller strips truthy values, and the only survivor (the empty string)
fails the `minlength` validator. -/
lemma valid_password_none (b : UserUpdateBody) (ubic : FieldUpdate GeoPoint)
    (h : userUpdateValid (userUpdateDocOf b ubic) = true) :
    (userUpdateDocOf b ubic).password = none := by
  unfold userUpdateValid at h
  simp only [Bool.and_eq_true] at h
  obtain ⟨⟨⟨_, _⟩, hp⟩, _⟩ := h
  cases hbp : b.password with
  | none => simp [userUpdateDocOf, hbp]
  | some p =>
    by_cases hq : p = ""
    · subst hq
      rw [show (userUpdateDocOf b ubic).password = some "" by
        simp [userUpdateDocOf, hbp]] at hp
      simp at hp
    · simp [userUpdateDocOf, hbp, hq]

/-- An update body carrying an empty-string password fails validation as a
whole: the empty string survives the truthiness strip and violates
`minlength: 6`. -/
lemma invalid_of_empty_password (b : UserUpdateBody) (ubic : FieldUpdate GeoPoint)
    (h : b.password = some "") :
    userUpdateValid (userUpdateDocOf b ubic) = false := by
  unfold userUpdateValid userUpdateDocOf
  rw [h]
  simp

/-- Password component of an applied user update. -/
lemma applyUserUpdate_password (w : UserDoc) (d : UserUpdateDoc) :
    (applyUserUpdate w d).password = d.password.getD w.password := rfl

/-- **C9** (counterexample to the claim as stated): with body
`{ password: "", nombre: "Bob" }` the password field is *not* silently
stripped — the empty string survives the truthiness guard, fails
`minlength`, and the whole update is rejected with 400: the remaining
field `nombre` does **not** proceed (it stays `"Ana"`). -/
theorem password_empty_blocks_update :
    (updateUser [anaUser] 10 { password := some "", nombre := some "Bob" }).1.status = 400 ∧
    (updateUser [anaUser] 10 { password := some "", nombre := some "Bob" }).1.message =
      "Datos de usuario inválidos" ∧
    (updateUser [anaUser] 10 { password := some "", nombre := some "Bob" }).2 = [anaUser] ∧
    (findUser (updateUser [anaUser] 10
        { password := some "", nombre := some "Bob" }).2 10).map UserDoc.nombre =
      some "Ana" := by
  decide

/-- **C9** (amended): the stored hashed credential never changes through
`updateUser`, whatever password value the body carries; a *non-empty*
password is silently stripped — the request behaves exactly as if no
password had been sent, so the remaining fields proceed normally — while an
*empty-string* password is not stripped and fails schema validation,
rejecting the entire update (400) with every field unchanged. -/
theorem password_stripped_on_update (db : List UserDoc) (i : ℕ) (b : UserUpdateBody)
    (usr : UserDoc) (hfind : findUser db i = some usr) :
    ((findUser (updateUser db i b).2 i).map UserDoc.password = some usr.password) ∧
    (∀ p, b.password = some p → p ≠ "" →
      updateUser db i b = updateUser db i { b with password := none }) ∧
    (b.password = some "" →
      (updateUser db i b).1.status = 400 ∧ (updateUser db i b).2 = db) := by
  refine ⟨?_, ?_, ?_⟩
  · unfold updateUser
    repeat' split
    all_goals
      simp_all [findUser_map_update, applyUserUpdate_id, applyUserUpdate_password,
        valid_password_none, hfind]
    all_goals repeat' split
    all_goals
      simp_all [findUser_map_update, applyUserUpdate_id, applyUserUpdate_password,
        valid_password_none]
  · intro p hp hpe
    have hq : (p == "") = false := by simpa using hpe
    have hdoc : ∀ ubic, userUpdateDocOf b ubic =
        userUpdateDocOf { b with password := none } ubic := by
      intro ubic
      unfold userUpdateDocOf
      rw [hp]
      simp [hq]
    unfold updateUser
    simp only [hdoc]
    rfl
  · intro hp
    unfold updateUser
    repeat' split
    all_goals simp_all [invalid_of_empty_password, hp, hfind]
    all_goals repeat' split
    all_goals simp_all

/-- Witness for `password_stripped_on_update`: the owner's update with a
long password plus a name change keeps the stored hash, behaves exactly as
the password-free request, and the empty-string password yields the 400. -/
theorem password_stripped_on_update_witness :
    (findUser (updateUser [anaUser] 10
        { password := some "secretpw", nombre := some "Bob" }).2 10).map
      UserDoc.password = some (bcryptHash "123456") ∧
    updateUser [anaUser] 10 { password := some "secretpw", nombre := some "Bob" } =
      updateUser [anaUser] 10 { nombre := some "Bob" } ∧
    (updateUser [anaUser] 10 { password := some "" }).1.status = 400 := by
  have h := password_stripped_on_update [anaUser] 10
    { password := some "secretpw", nombre := some "Bob" } anaUser (by decide)
  have h2 := password_stripped_on_update [anaUser] 10
    { password := some "" } anaUser (by decide)
  refine ⟨?_, ?_, (h2.2.2 rfl).1⟩
  · have := h.1
    rwa [show anaUser.password = bcryptHash "123456" from rfl] at this
  · exact h.2.1 "secretpw" rfl (by decide)

/-- **C10** (counterexample to the claim as stated): `"Infinity,0"` does
not parse into two *finite* numbers, yet `parseFloat` yields `Infinity`,
`isNaN(Infinity)` is false, and the handlers do install a geographic filter
(with infinite longitude) instead of omitting it — the claim's "finite"
boundary is wrong, the code's boundary is `isNaN`. -/
theorem infinity_installs_geo_filter :
    parsesToTwoFinite "Infinity,0" = false ∧
    (getUsers none (some "Infinity,0") 10 1 10).query.near ≠ none ∧
    ((getUsers none (some "Infinity,0") 10 1 10).query.near).map GeoNearQuery.lon =
      some Js.inf ∧
    getUsersQuery none (some "Infinity,0") 10 ≠ getUsersQuery none none 10 ∧
    (getServicesQuery none none (some "Infinity,0") 10).near ≠ none := by
  refine ⟨by decide, by decide, by decide, by decide, by decide⟩

/-- **C10** (amended): the geographic 400 branch is dead — the model
handlers return the 200 page unconditionally, because the parse inside the
`try` is total for string inputs — and whenever either parsed component of
`ubicacion` is NaN (non-numeric strings such as `"abc,def"`, or a single
value whose second component is `undefined`) the geographic filter is
silently omitted: the store query — and for users the entire response —
equals the one with no `ubicacion` at all. -/
theorem geo_filter_omitted_on_nan (rol categoria estado : Option String)
    (radio : ℚ) (page limit : ℤ) (ordenarPor orden : String) (s : String)
    (h : (ubicacionComponents s).1.jsIsNaN = true ∨
      (ubicacionComponents s).2.jsIsNaN = true) :
    buildGeoQuery (some s) radio = none ∧
    getUsers rol (some s) radio page limit = getUsers rol none radio page limit ∧
    (getUsers rol (some s) radio page limit).status = 200 ∧
    (getServices categoria estado (some s) radio page limit ordenarPor orden).query =
      (getServices categoria estado none radio page limit ordenarPor orden).query ∧
    (getServices categoria estado (some s) radio page limit ordenarPor orden).status =
      200 := by
  have hb : buildGeoQuery (some s) radio = none := by
    unfold buildGeoQuery
    by_cases hs : s == ""
    · simp [hs]
    · rcases h with h | h <;> simp [hs, h]
  refine ⟨hb, ?_, rfl, ?_, rfl⟩
  · simp [getUsers, getUsersQuery, hb, show buildGeoQuery none radio = none from rfl]
  · simp [getServices, getServicesQuery, hb,
      show buildGeoQuery none radio = none from rfl]

/-- Witness for `geo_filter_omitted_on_nan`: `"abc,def"` parses to two NaN
components, and the users request with it is identical to the one without
any `ubicacion`. -/
theorem geo_filter_omitted_on_nan_witness :
    (ubicacionComponents "abc,def").1.jsIsNaN = true ∧
    getUsers none (some "abc,def") 10 1 10 = getUsers none none 10 1 10 ∧
    (getServicesQuery none none (some "5") 10).near = none := by
  refine ⟨by decide, ?_, ?_⟩
  · exact (geo_filter_omitted_on_nan none none none 10 1 10 "fechaPublicacion" "desc"
      "abc,def" (Or.inl (by decide))).2.1
  · have h := (geo_filter_omitted_on_nan none none none 10 1 10 "fechaPublicacion"
      "desc" "5" (Or.inr (by decide))).2.2.2.1
    rw [show (getServices none none (some "5") 10 1 10 "fechaPublicacion" "desc").query =
        getServicesQuery none none (some "5") 10 from rfl] at h
    rw [h]
    decide

end LocalAid
